import Mathlib

/-!
Verification development for the Rag-system repository (talalaslam15/Rag-system).

The development shallowly embeds the Python sources:
  - src/index.py          : class RAGSystem (FAISS backend, loads "**/*.txt")
  - src/rag-chromadb.py   : class RAGSystemChroma (near-duplicate, PDF/Chroma)
  - src/backend/api.py    : FastAPI wrapper with global rag_system / rag_chain

Pure functions become Lean functions; the module-level globals of api.py
become an explicit ApiState record threaded through the handlers; external
collaborators (directory contents, the embedding backend, the LLM backend)
are an explicit Env record of outcomes, so that a build or a query is a
deterministic function of (Env, state, input).  Exceptions become Except.
-/

namespace RagSys

/-! ## Characters and filename utilities -/

/-- The glob used by RAGSystem.load_documents in src/index.py line 29 is
"**/*.txt"; a relative file path matches it exactly when it ends in ".txt"
(pathlib glob matching is case sensitive and recursive, so the directory
part of the path is unconstrained). -/
def txtGlobMatch (path : List Char) : Bool :=
  ['t', 'x', 't', '.'].isPrefixOf path.reverse

/-- Python Path(filename).name as used by sanitize_filename in
src/backend/api.py line 204: the component after the last path separator.
(pathlib additionally normalises away "." components and trailing slashes;
both semantics agree that the result never contains a separator, which is
the only property the claims use.) -/
def pathName (s : List Char) : List Char :=
  (s.reverse.takeWhile (fun c => !(c == '/'))).reverse

/-- Index of the last dot of a name, when it has one. -/
def lastDotIdx (b : List Char) : Option Nat :=
  match b.reverse.findIdx? (fun c => c == '.') with
  | none => none
  | some j => some (b.length - 1 - j)

/-- Python os.path.splitext applied to a bare file name (no separator), as
used by sanitize_filename in src/backend/api.py line 206: split at the last
dot, except that a name whose characters before the last dot are all dots
(".bashrc", "..") gets an empty extension. Returns (root, ext). -/
def splitext (b : List Char) : List Char × List Char :=
  match lastDotIdx b with
  | none => (b, [])
  | some i =>
      if (b.take i).all (fun c => c == '.') then (b, [])
      else (b.take i, b.drop i)

/-- Python pathlib Path(filename).suffix, as used by is_allowed_file and
get_file_type in src/backend/api.py lines 188 and 199: the extension of the
final component, empty when the last dot is the first character or the last
character of that component. -/
def pathSuffix (s : List Char) : List Char :=
  match lastDotIdx (pathName s) with
  | none => []
  | some i =>
      if 0 < i ∧ i < (pathName s).length - 1 then (pathName s).drop i else []

/-- src/backend/api.py line 182: ALLOWED_EXTENSIONS = set of .pdf .docx .txt -/
def allowedExtensions : List (List Char) :=
  [['.', 'p', 'd', 'f'], ['.', 'd', 'o', 'c', 'x'], ['.', 't', 'x', 't']]

/-- src/backend/api.py lines 197-199: is_allowed_file checks that the
lower-cased suffix of the filename is one of the allowed extensions. -/
def is_allowed_file (filename : List Char) : Bool :=
  allowedExtensions.contains ((pathSuffix filename).map Char.toLower)

/-- src/backend/api.py lines 201-208: sanitize_filename takes the basename,
splits off the extension, and inserts "_" plus the first eight characters of
a fresh uuid4 before the extension.  The uuid is an input here (the only
nondeterminism of the function): uuid4 hex means its characters are hex
digits. -/
def sanitize_filename (filename : List Char) (uid : List Char) : List Char :=
  (splitext (pathName filename)).1 ++ '_' :: (uid ++ (splitext (pathName filename)).2)

/-- src/backend/api.py line 240: os.path.join(UPLOAD_DIR, safe_filename)
with UPLOAD_DIR = "docs"; Python join starts over at an absolute second
argument, otherwise inserts a single separator. -/
def osPathJoin (a b : List Char) : List Char :=
  if b.head? = some '/' then b else a ++ '/' :: b

/-- Python uuid4 strings are lowercase hex digits and dashes; the first
eight characters taken by sanitize_filename are hex digits. -/
def isHexCh (c : Char) : Bool :=
  c.isDigit || ('a' ≤ c && c ≤ 'f')

/-! ## Data model -/

/-- A loaded document: text plus source metadata (src loaders tag records
with the originating file path; the plain-text loader has no pages). -/
structure Document where
  text : List Char
  source : List Char
  deriving DecidableEq, Repr

/-- A chunk produced by the splitter: text, inherited metadata, and a
0-based index within its document. -/
structure Chunk where
  text : List Char
  source : List Char
  chunkIndex : Nat
  deriving DecidableEq, Repr

/-- Embedding vectors; rationals stand in for the floats of the model. -/
abbrev Vector := List ℚ

/-- The FAISS store built by create_vector_store: the embedded chunks of one
corpus snapshot, in insertion order. -/
abbrev VectorStore := List (Chunk × Vector)

/-! ## Document loader (src/index.py lines 25-35) -/

/-- One file of the source directory: its path and its content, none when
the file is unreadable or corrupt (TextLoader would raise on it). -/
structure SourceFile where
  path : List Char
  content : Option (List Char)
  deriving DecidableEq, Repr

/-- The files the DirectoryLoader will visit: those matching "**/*.txt". -/
def matchingFiles (files : List SourceFile) : List SourceFile :=
  files.filter (fun f => txtGlobMatch f.path)

/-- DirectoryLoader.load with silent_errors left False (the default in
src/index.py line 29): documents of the matching files in order, raising
(here: Except.error, carrying the offending path) at an unreadable file. -/
def loaderLoadAux : List SourceFile → Except (List Char) (List Document)
  | [] => .ok []
  | f :: fs =>
      match f.content with
      | none => .error f.path
      | some t =>
          match loaderLoadAux fs with
          | .error e => .error e
          | .ok ds => .ok (⟨t, f.path⟩ :: ds)

/-- loader.load() of src/index.py line 30. -/
def directoryLoaderLoad (files : List SourceFile) : Except (List Char) (List Document) :=
  loaderLoadAux (matchingFiles files)

/-- src/index.py lines 25-35: load_documents wraps the whole loader.load()
call in try/except and returns the empty list on any exception. -/
def load_documents (files : List SourceFile) : List Document :=
  match directoryLoaderLoad files with
  | .ok docs => docs
  | .error _ => []

/-- The documents of the readable matching files — what a skip-and-continue
loader (spec section 4.1) would return. -/
def readableDocs (files : List SourceFile) : List Document :=
  (matchingFiles files).filterMap (fun f => f.content.map (fun t => ⟨t, f.path⟩))

/-! ## Chunker (src/index.py lines 37-46)

The splitting itself happens inside langchain's
RecursiveCharacterTextSplitter, which is an external dependency, not code of
this repository.  Modelled from the spec, section 4.2: greedily consume
chunk_size characters per chunk, retreating by chunk_overlap before starting
the next chunk (stride = chunk_size - chunk_overlap); the final chunk may be
shorter; constraint chunk_overlap < chunk_size checked at call time. -/

/-- Sliding windows over a text; fuel-based structural recursion (fuel =
text length suffices since the stride is positive under the checked
constraint). -/
def windowsGo (cs stride : Nat) : Nat → List Char → List (List Char)
  | _, [] => []
  | 0, t => [t]
  | fuel + 1, t =>
      if t.length ≤ cs then [t]
      else t.take cs :: windowsGo cs stride fuel (t.drop stride)

/-- All chunk windows of one text. -/
def windows (cs co : Nat) (t : List Char) : List (List Char) :=
  windowsGo cs (cs - co) t.length t

/-- Chunks of one document, each inheriting the document metadata plus its
0-based index. -/
def chunkDoc (cs co : Nat) (d : Document) : List Chunk :=
  (windows cs co d.text).enum.map (fun p => ⟨p.2, d.source, p.1⟩)

/-- Modelled from the spec: the configuration constraint of the splitter
(spec section 4.2: chunk_overlap < chunk_size, violation is a configuration
error checked at call time; the check itself lives in the external
RecursiveCharacterTextSplitter constructor invoked at src/index.py
lines 40-43, not in this repository). -/
def textSplitterCheck (cs co : Nat) : Except (List Char) Unit :=
  if co < cs then .ok () else .error ['C', 'o', 'n', 'f', 'i', 'g']

/-- src/index.py lines 37-46: split_documents constructs the splitter (the
configuration check runs here, before any chunking) and then splits every
document. -/
def split_documents (docs : List Document) (cs co : Nat) :
    Except (List Char) (List Chunk) :=
  match textSplitterCheck cs co with
  | .error e => .error e
  | .ok _ => .ok (docs.flatMap (chunkDoc cs co))

/-! ## Vector similarity search (spec section 4.4)

The k-nearest-neighbour search itself happens inside FAISS via langchain
(src/index.py line 69, vector_store.as_retriever), external to this
repository.  Modelled from the spec, section 4.4: score every stored chunk
against the query vector (inner product is one of the two measures the spec
allows), sort descending by score with ties broken by insertion order
(stable insertion sort), and clamp k to the index size by taking the first
k results. -/

/-- Inner product of two vectors. -/
def dot (a b : Vector) : ℚ :=
  (List.zipWith (fun x y => x * y) a b).sum

/-- Stable descending insertion: x goes before the first element with a
strictly smaller key, so equal keys keep insertion order. -/
def insertDesc (key : α → ℚ) (x : α) : List α → List α
  | [] => [x]
  | y :: ys => if key y < key x then x :: y :: ys else y :: insertDesc key x ys

/-- Stable descending insertion sort. -/
def sortDesc (key : α → ℚ) : List α → List α
  | [] => []
  | x :: xs => insertDesc key x (sortDesc key xs)

/-- Modelled from the spec: search(query_vector, k) — all stored chunks
scored and sorted descending, first k returned. -/
def similaritySearch (store : VectorStore) (v : Vector) (k : Nat) :
    List (Chunk × ℚ) :=
  (sortDesc Prod.snd (store.map (fun p => (p.1, dot p.2 v)))).take k

/-! ## The RAGSystem class (src/index.py) -/

/-- The mutable attributes of a RAGSystem instance (src/index.py
lines 16-23): the docs directory and the two optional slots filled during
the build. -/
structure RAGSystem where
  docsDir : List Char
  vectorStore : Option VectorStore
  llm : Option (List Char)
  deriving DecidableEq, Repr

/-- RAGSystem.__init__ with the default docs_dir (src/index.py line 16). -/
def RAGSystem.init : RAGSystem :=
  ⟨['.', '/', 'd', 'o', 'c', 's'], none, none⟩

/-- Outcomes of the external collaborators during a build or a query: the
directory contents, whether the embedding backend is up (HuggingFace model
plus FAISS build, src/index.py lines 51-52), whether the ChatOpenAI
constructor succeeds (line 60), the embedding function, and the generation
backend (Except.error = the backend call failed or timed out). -/
structure Env where
  files : List SourceFile
  embedBackendOk : Bool
  llmInitOk : Bool
  embed : List Char → Vector
  generate : List Char → Except (List Char) (List Char)

/-- src/index.py lines 48-55: create_vector_store embeds the chunks and
builds the FAISS store, assigning self.vector_store on success; a backend
failure raises before the assignment, leaving self untouched. -/
def create_vector_store (env : Env) (sys : RAGSystem) (chunks : List Chunk) :
    RAGSystem × Except (List Char) VectorStore :=
  if env.embedBackendOk then
    let vs : VectorStore := chunks.map (fun c => (c, env.embed c.text))
    ({ sys with vectorStore := some vs }, .ok vs)
  else
    (sys, .error ['E', 'm', 'b', 'e', 'd'])

/-- src/index.py lines 57-60: initialize_llm assigns self.llm; a ChatOpenAI
constructor failure raises, leaving self untouched. -/
def initialize_llm (env : Env) (sys : RAGSystem) (model : List Char) :
    RAGSystem × Except (List Char) Unit :=
  if env.llmInitOk then ({ sys with llm := some model }, .ok ())
  else (sys, .error ['L', 'L', 'M'])

/-- The rag_chain built by setup_rag_pipeline: a retriever over the vector
store with its fixed k, piped into the prompt template and the llm. -/
structure RagChain where
  store : VectorStore
  k : Nat
  llm : List Char
  deriving DecidableEq, Repr

/-- src/index.py lines 62-88: setup_rag_pipeline raises a ValueError when
the vector store or the llm is missing, else wires the retriever (line 69,
search_kwargs k = 3) into the chain. -/
def setup_rag_pipeline (sys : RAGSystem) : Except (List Char) RagChain :=
  match sys.vectorStore with
  | none => .error ['V', 'e', 'c', 't', 'o', 'r']
  | some vs =>
      match sys.llm with
      | none => .error ['L', 'L', 'M']
      | some m => .ok ⟨vs, 3, m⟩

/-- The retrieval step of the chain (line 82, context := retriever applied
to the question): embed the question, search the store with the chain's k. -/
def retrieveCtx (embedF : List Char → Vector) (chain : RagChain)
    (question : List Char) : List (Chunk × ℚ) :=
  similaritySearch chain.store (embedF question) chain.k

/-- The context block the prompt template receives: the retrieved chunk
texts joined by blank lines (a modelling choice for langchain's string
formatting of the document list; its exact shape is irrelevant to the
claims). -/
def contextText (ctx : List (Chunk × ℚ)) : List Char :=
  List.intercalate ['\n', '\n'] (ctx.map (fun p => p.1.text))

/-- The prompt of src/index.py lines 71-76 rendered with a context and a
question. -/
def renderPrompt (ctx : List (Chunk × ℚ)) (question : List Char) : List Char :=
  ("Answer the question based only on the following context:\n".data
    ++ contextText ctx)
    ++ ("\n\nQuestion: ".data ++ question ++ "\n\nAnswer:".data)

/-- Invoking the chain (src/index.py lines 81-86 piped into line 96):
retrieve, render the prompt, call the generation backend, pass the string
output through.  A backend failure propagates as the error it raised. -/
def chainInvoke (env : Env) (chain : RagChain) (question : List Char) :
    Except (List Char) (List Char) :=
  env.generate (renderPrompt (retrieveCtx env.embed chain question) question)

/-- src/index.py lines 90-97: process_query builds the chain when none is
passed, then invokes it; it catches nothing, so any error propagates
untouched. -/
def RAGSystem.process_query (env : Env) (sys : RAGSystem) (query : List Char)
    (ragChain : Option RagChain) : Except (List Char) (List Char) :=
  match ragChain with
  | some c => chainInvoke env c query
  | none =>
      match setup_rag_pipeline sys with
      | .error e => .error e
      | .ok c => chainInvoke env c query

/-- The default model name of build_rag_system (src/index.py line 99). -/
def defaultModel : List Char := "gpt-3.5-turbo".data

/-- src/index.py lines 99-110: build_rag_system runs load, split, vector
store, llm, and pipeline setup in sequence, mutating self along the way;
it returns none ("return None") when the loader produced no documents, and
lets any exception of a later stage propagate with self in whatever state
the completed stages left it. -/
def build_rag_system (env : Env) (sys : RAGSystem) (model : List Char) :
    RAGSystem × Except (List Char) (Option RagChain) :=
  let documents := load_documents env.files
  if documents.isEmpty then (sys, .ok none)
  else
    match split_documents documents 1000 200 with
    | .error e => (sys, .error e)
    | .ok chunks =>
        match create_vector_store env sys chunks with
        | (sys1, .error e) => (sys1, .error e)
        | (sys1, .ok _) =>
            match initialize_llm env sys1 model with
            | (sys2, .error e) => (sys2, .error e)
            | (sys2, .ok _) =>
                match setup_rag_pipeline sys2 with
                | .error e => (sys2, .error e)
                | .ok chain => (sys2, .ok (some chain))

/-! ## The FastAPI layer (src/backend/api.py) -/

/-- The module-level globals of src/backend/api.py lines 28-30: rag_system
and rag_chain, both None until a build ran. -/
structure ApiState where
  ragSystem : Option RAGSystem
  ragChain : Option RagChain
  deriving DecidableEq, Repr

/-- An HTTPException raised by a handler: status code and detail string. -/
structure HTTPError where
  code : Nat
  detail : List Char
  deriving DecidableEq, Repr

/-- The fixed detail of the 503 of src/backend/api.py lines 133-137. -/
def notReadyDetail : List Char :=
  "RAG system not initialized or no documents available".data

/-- A query response (src/backend/api.py lines 37-40, 143-147). -/
structure QueryResponse where
  question : List Char
  answer : List Char
  status : List Char
  deriving DecidableEq, Repr

/-- src/backend/api.py lines 128-153: the query handler returns 503 with a
fixed detail when either global is None, else invokes
rag_system.process_query(question, rag_chain) and wraps any exception into
a 500 whose detail embeds str(e). -/
def Api.process_query (env : Env) (st : ApiState) (question : List Char) :
    Except HTTPError QueryResponse :=
  match st.ragSystem, st.ragChain with
  | some sys, some chain =>
      match RAGSystem.process_query env sys question (some chain) with
      | .ok ans => .ok ⟨question, ans, "success".data⟩
      | .error e => .error ⟨500, "Error processing query: ".data ++ e⟩
  | _, _ => .error ⟨503, notReadyDetail⟩

/-- The possible bodies of the reinitialize handler. -/
inductive ReinitResult where
  | success
  | warning
  | failure (e : HTTPError)
  deriving DecidableEq, Repr

/-- src/backend/api.py lines 155-174: reinitialize_system replaces the
global rag_system with a fresh instance, then assigns rag_chain from
build_rag_system.  When the build raises, the assignment to rag_chain never
happens (it keeps its previous value), rag_system keeps the fresh instance
in whatever state the build left it, and the handler answers 500. -/
def reinitialize_system (env : Env) (st : ApiState) : ApiState × ReinitResult :=
  match build_rag_system env RAGSystem.init defaultModel with
  | (sys1, .ok (some chain)) => (⟨some sys1, some chain⟩, .success)
  | (sys1, .ok none) => (⟨some sys1, none⟩, .warning)
  | (sys1, .error e) =>
      (⟨some sys1, st.ragChain⟩,
       .failure ⟨500, "Error reinitializing system: ".data ++ e⟩)

/-! ## Helper lemmas -/

theorem length_insertDesc (key : α → ℚ) (x : α) :
    ∀ l : List α, (insertDesc key x l).length = l.length + 1 := by
  intro l
  induction l with
  | nil => rfl
  | cons y ys ih =>
      by_cases h : key y < key x
      · simp [insertDesc, h]
      · simp [insertDesc, h, ih]

theorem mem_insertDesc (key : α → ℚ) (x : α) :
    ∀ l : List α, ∀ y ∈ insertDesc key x l, y = x ∨ y ∈ l := by
  intro l
  induction l with
  | nil => intro y hy; simp [insertDesc] at hy; exact Or.inl hy
  | cons z zs ih =>
      intro y hy
      by_cases h : key z < key x
      · simp only [insertDesc, if_pos h, List.mem_cons] at hy
        rcases hy with h1 | h2 | h3
        · exact Or.inl h1
        · exact Or.inr (by simp [h2])
        · exact Or.inr (by simp [h3])
      · simp only [insertDesc, if_neg h, List.mem_cons] at hy
        rcases hy with h1 | h2
        · exact Or.inr (by simp [h1])
        · rcases ih y h2 with h3 | h4
          · exact Or.inl h3
          · exact Or.inr (by simp [h4])

theorem pairwise_insertDesc (key : α → ℚ) (x : α) :
    ∀ l : List α, l.Pairwise (fun a b => key b ≤ key a) →
      (insertDesc key x l).Pairwise (fun a b => key b ≤ key a) := by
  intro l
  induction l with
  | nil => intro _; simp [insertDesc]
  | cons z zs ih =>
      intro hp
      rw [List.pairwise_cons] at hp
      obtain ⟨hz, hzs⟩ := hp
      by_cases h : key z < key x
      · rw [insertDesc, if_pos h, List.pairwise_cons]
        refine ⟨?_, ?_⟩
        · intro y hy
          rcases List.mem_cons.mp hy with h1 | h2
          · exact h1 ▸ le_of_lt h
          · exact le_trans (hz y h2) (le_of_lt h)
        · rw [List.pairwise_cons]; exact ⟨hz, hzs⟩
      · rw [insertDesc, if_neg h, List.pairwise_cons]
        refine ⟨?_, ih hzs⟩
        intro y hy
        rcases mem_insertDesc key x zs y hy with h1 | h2
        · exact h1 ▸ not_lt.mp h
        · exact hz y h2

theorem length_sortDesc (key : α → ℚ) :
    ∀ l : List α, (sortDesc key l).length = l.length := by
  intro l
  induction l with
  | nil => rfl
  | cons x xs ih => simp [sortDesc, length_insertDesc, ih]

theorem pairwise_sortDesc (key : α → ℚ) :
    ∀ l : List α, (sortDesc key l).Pairwise (fun a b => key b ≤ key a) := by
  intro l
  induction l with
  | nil => simp [sortDesc]
  | cons x xs ih => exact pairwise_insertDesc key x _ ih

theorem loaderLoadAux_all_readable :
    ∀ l : List SourceFile, (∀ f ∈ l, f.content.isSome) →
      loaderLoadAux l
        = .ok (l.filterMap (fun f => f.content.map (fun t => (⟨t, f.path⟩ : Document)))) := by
  intro l
  induction l with
  | nil => intro _; rfl
  | cons f fs ih =>
      intro h
      obtain ⟨t, ht⟩ := Option.isSome_iff_exists.mp (h f (by simp))
      have hrest := ih (fun g hg => h g (by simp [hg]))
      simp [loaderLoadAux, ht, hrest]

theorem loaderLoadAux_error_of_bad :
    ∀ l : List SourceFile, (∃ f ∈ l, f.content = none) →
      ∃ e, loaderLoadAux l = .error e := by
  intro l
  induction l with
  | nil => intro h; simp at h
  | cons f fs ih =>
      intro h
      cases hc : f.content with
      | none => exact ⟨f.path, by simp [loaderLoadAux, hc]⟩
      | some t =>
          obtain ⟨g, hg, hgc⟩ := h
          have hmem : g ∈ fs := by
            rcases List.mem_cons.mp hg with rfl | hmem
            · rw [hc] at hgc; cases hgc
            · exact hmem
          obtain ⟨e, he⟩ := ih ⟨g, hmem, hgc⟩
          exact ⟨e, by simp [loaderLoadAux, hc, he]⟩

theorem load_documents_sources_aux :
    ∀ (l : List SourceFile) (ds : List Document),
      (∀ f ∈ l, txtGlobMatch f.path = true) → loaderLoadAux l = .ok ds →
      ∀ d ∈ ds, txtGlobMatch d.source = true := by
  intro l
  induction l with
  | nil =>
      intro ds _ hok
      simp only [loaderLoadAux] at hok
      cases hok
      simp
  | cons f fs ih =>
      intro ds hall hok
      cases hc : f.content with
      | none => simp [loaderLoadAux, hc] at hok
      | some t =>
          simp only [loaderLoadAux, hc] at hok
          cases hrec : loaderLoadAux fs with
          | error e => rw [hrec] at hok; cases hok
          | ok ds0 =>
              rw [hrec] at hok
              cases hok
              intro d hd
              rcases List.mem_cons.mp hd with rfl | hmem
              · exact hall f (by simp)
              · exact ih ds0 (fun g hg => hall g (by simp [hg])) hrec d hmem

/-- Every Document produced by load_documents originates from a file path
matching the loader glob "**/*.txt". -/
theorem load_documents_sources (files : List SourceFile) :
    ∀ d ∈ load_documents files, txtGlobMatch d.source = true := by
  intro d hd
  unfold load_documents directoryLoaderLoad at hd
  cases hok : loaderLoadAux (matchingFiles files) with
  | error e => rw [hok] at hd; simp at hd
  | ok ds =>
      rw [hok] at hd
      exact load_documents_sources_aux (matchingFiles files) ds
        (fun f hf => (List.mem_filter.mp hf).2) hok d hd

/-! ## Concrete environments used by witnesses and counterexamples -/

/-- A readable matching file. -/
def fileA : SourceFile := ⟨"a.txt".data, some "hello".data⟩

/-- An unreadable (corrupt) matching file: TextLoader raises on it. -/
def fileBad : SourceFile := ⟨"b.txt".data, none⟩

/-- A healthy environment: one readable file, working backends. -/
def envGood : Env := ⟨[fileA], true, true, fun _ => [1], fun p => .ok p⟩

/-- The healthy environment after the directory gained a corrupt file. -/
def envLoaderFail : Env := ⟨[fileA, fileBad], true, true, fun _ => [1], fun p => .ok p⟩

/-- The healthy environment with the embedding backend down. -/
def envEmbedFail : Env := ⟨[fileA], false, true, fun _ => [1], fun p => .ok p⟩

/-- An environment whose source directory has no matching files. -/
def envNoFiles : Env := ⟨[], true, true, fun _ => [1], fun p => .ok p⟩

/-- The API state after a successful build in the healthy environment. -/
def stReady : ApiState := (reinitialize_system envGood ⟨none, none⟩).1

/-- The vector store the healthy build produces. -/
def readyStore : VectorStore := [(⟨"hello".data, "a.txt".data, 0⟩, [1])]

/-- The RAGSystem instance the healthy build leaves behind. -/
def readySys : RAGSystem := ⟨"./docs".data, some readyStore, some defaultModel⟩

/-- The rag_chain the healthy build produces. -/
def readyChain : RagChain := ⟨readyStore, 3, defaultModel⟩

/-! ## Claim theorems -/

/-- C3, part settled against the code: for chunk_overlap ≥ chunk_size the
split call is rejected with a configuration error before any chunking (the
result carries no chunks), and for chunk_overlap < chunk_size it succeeds —
the constraint is the only configuration check.  The constraint itself is
modelled from the spec (section 4.2), since the check lives in the external
RecursiveCharacterTextSplitter constructor invoked by split_documents. -/
theorem c3_overlap_config_check (docs : List Document) (cs co : Nat) :
    (cs ≤ co → split_documents docs cs co = .error ['C', 'o', 'n', 'f', 'i', 'g']) ∧
    (co < cs → split_documents docs cs co = .ok (docs.flatMap (chunkDoc cs co))) := by
  constructor
  · intro h
    simp [split_documents, textSplitterCheck, Nat.not_lt.mpr h]
  · intro h
    simp [split_documents, textSplitterCheck, h]

/-- Witness for C3 at concrete configurations. -/
theorem c3_overlap_config_check_witness :
    split_documents [] 5 7 = .error ['C', 'o', 'n', 'f', 'i', 'g'] ∧
    split_documents [] 7 5 = .ok [] :=
  ⟨(c3_overlap_config_check [] 5 7).1 (by decide),
   (c3_overlap_config_check [] 7 5).2 (by decide)⟩

/-- C5: search on an index of n embedded chunks with n < k returns exactly
n results sorted by descending score, and on an empty index it returns the
empty sequence for any k (and never an error — it is total).  The search is
modelled from the spec (section 4.4), since the k-nearest-neighbour code
lives in the external FAISS backend. -/
theorem c5_search_k_clamp (store : VectorStore) (v : Vector) (k : Nat)
    (h : store.length < k) :
    (similaritySearch store v k).length = store.length ∧
    (similaritySearch store v k).Pairwise (fun a b => b.2 ≤ a.2) ∧
    similaritySearch [] v k = [] := by
  refine ⟨?_, ?_, by simp [similaritySearch, sortDesc]⟩
  · have hlen : (sortDesc Prod.snd (store.map (fun p => (p.1, dot p.2 v)))).length
        = store.length := by
      rw [length_sortDesc, List.length_map]
    rw [similaritySearch, List.length_take, hlen]
    exact Nat.min_eq_right (Nat.le_of_lt h)
  · exact (pairwise_sortDesc Prod.snd _).sublist (List.take_sublist k _)

/-- Witness for C5: a two-chunk index searched with k = 5. -/
theorem c5_search_k_clamp_witness :
    ([((⟨['a'], ['a'], 0⟩ : Chunk), ([1] : Vector)),
      ((⟨['b'], ['b'], 1⟩ : Chunk), ([2] : Vector))] : VectorStore).length < 5 ∧
    ((similaritySearch [((⟨['a'], ['a'], 0⟩ : Chunk), ([1] : Vector)),
        ((⟨['b'], ['b'], 1⟩ : Chunk), ([2] : Vector))] [1] 5).length
      = ([((⟨['a'], ['a'], 0⟩ : Chunk), ([1] : Vector)),
          ((⟨['b'], ['b'], 1⟩ : Chunk), ([2] : Vector))] : VectorStore).length ∧
      (similaritySearch [((⟨['a'], ['a'], 0⟩ : Chunk), ([1] : Vector)),
        ((⟨['b'], ['b'], 1⟩ : Chunk), ([2] : Vector))] [1] 5).Pairwise
          (fun a b => b.2 ≤ a.2) ∧
      similaritySearch [] [1] 5 = []) :=
  ⟨by decide,
   c5_search_k_clamp [((⟨['a'], ['a'], 0⟩ : Chunk), ([1] : Vector)),
      ((⟨['b'], ['b'], 1⟩ : Chunk), ([2] : Vector))] [1] 5 (by decide)⟩

/-- C6: the chain built by setup_rag_pipeline queries the index with the
fixed k = 3 (src/index.py line 69), so retrieval returns at most 3 chunks;
and retrieval is a pure function of the question and the chain (equal
inputs give equal outputs, no other state is read). -/
theorem c6_retriever_fixed_k3 (sys : RAGSystem) (chain : RagChain)
    (h : setup_rag_pipeline sys = .ok chain) :
    chain.k = 3 ∧
    (∀ (embedF : List Char → Vector) (q : List Char),
      (retrieveCtx embedF chain q).length ≤ 3) ∧
    (∀ (embedF : List Char → Vector) (q1 q2 : List Char), q1 = q2 →
      retrieveCtx embedF chain q1 = retrieveCtx embedF chain q2) := by
  have hk : chain.k = 3 := by
    unfold setup_rag_pipeline at h
    cases hvs : sys.vectorStore with
    | none => rw [hvs] at h; cases h
    | some vs =>
        cases hll : sys.llm with
        | none => rw [hvs, hll] at h; cases h
        | some m =>
            rw [hvs, hll] at h
            cases h
            rfl
  refine ⟨hk, ?_, ?_⟩
  · intro embedF q
    rw [retrieveCtx, hk]
    exact List.length_take_le 3 _
  · intro embedF q1 q2 hq
    rw [hq]

/-- Witness for C6 on a concretely assembled RAGSystem. -/
theorem c6_retriever_fixed_k3_witness :
    setup_rag_pipeline ⟨['d'], some [((⟨['a'], ['a'], 0⟩ : Chunk), [1])],
        some defaultModel⟩
      = .ok ⟨[((⟨['a'], ['a'], 0⟩ : Chunk), [1])], 3, defaultModel⟩ ∧
    ((⟨[((⟨['a'], ['a'], 0⟩ : Chunk), [1])], 3, defaultModel⟩ : RagChain).k = 3 ∧
      (∀ (embedF : List Char → Vector) (q : List Char),
        (retrieveCtx embedF ⟨[((⟨['a'], ['a'], 0⟩ : Chunk), [1])], 3, defaultModel⟩
          q).length ≤ 3) ∧
      (∀ (embedF : List Char → Vector) (q1 q2 : List Char), q1 = q2 →
        retrieveCtx embedF ⟨[((⟨['a'], ['a'], 0⟩ : Chunk), [1])], 3, defaultModel⟩ q1
          = retrieveCtx embedF ⟨[((⟨['a'], ['a'], 0⟩ : Chunk), [1])], 3,
              defaultModel⟩ q2)) :=
  ⟨rfl,
   c6_retriever_fixed_k3
     ⟨['d'], some [((⟨['a'], ['a'], 0⟩ : Chunk), [1])], some defaultModel⟩
     ⟨[((⟨['a'], ['a'], 0⟩ : Chunk), [1])], 3, defaultModel⟩ rfl⟩

/-- C7: when the generation backend fails during a query, the error
propagates out of RAGSystem.process_query untouched (the method catches
nothing), and the query endpoint answers with an error embedding it —
never a success response with fabricated answer text. -/
theorem c7_generation_error_propagates (env : Env) (sys : RAGSystem)
    (chain : RagChain) (q e : List Char)
    (hgen : env.generate (renderPrompt (retrieveCtx env.embed chain q) q)
      = .error e) :
    RAGSystem.process_query env sys q (some chain) = .error e ∧
    Api.process_query env ⟨some sys, some chain⟩ q
      = .error ⟨500, "Error processing query: ".data ++ e⟩ := by
  have hcore : RAGSystem.process_query env sys q (some chain) = .error e := by
    simp [RAGSystem.process_query, chainInvoke, hgen]
  exact ⟨hcore, by simp [Api.process_query, hcore]⟩

/-- Witness for C7 with a concretely failing generation backend. -/
theorem c7_generation_error_propagates_witness :
    RAGSystem.process_query
        ⟨[], true, true, fun _ => [1], fun _ => .error "timeout".data⟩
        RAGSystem.init ['q']
        (some ⟨[((⟨['a'], ['a'], 0⟩ : Chunk), [1])], 3, defaultModel⟩)
      = .error "timeout".data ∧
    Api.process_query ⟨[], true, true, fun _ => [1], fun _ => .error "timeout".data⟩
        ⟨some RAGSystem.init,
         some ⟨[((⟨['a'], ['a'], 0⟩ : Chunk), [1])], 3, defaultModel⟩⟩ ['q']
      = .error ⟨500, "Error processing query: ".data ++ "timeout".data⟩ :=
  c7_generation_error_propagates _ RAGSystem.init _ ['q'] "timeout".data rfl

/-- C8: chunking is deterministic — identical documents and configuration
always produce the identical chunk sequence, in order, texts, metadata and
chunk indices included (the embedded splitter reads nothing but its
arguments; the window algorithm is modelled from the spec, section 4.2). -/
theorem c8_chunking_deterministic (docs1 docs2 : List Document) (cs co : Nat)
    (h : docs1 = docs2) :
    split_documents docs1 cs co = split_documents docs2 cs co := by
  rw [h]

/-- Witness for C8: two runs on a concrete document agree, and evaluate to
the expected concrete chunks (overlap 1, window 4, 0-based indices). -/
theorem c8_chunking_deterministic_witness :
    split_documents [⟨"abcdef".data, "d.txt".data⟩] 4 1
      = split_documents [⟨"abcdef".data, "d.txt".data⟩] 4 1 ∧
    split_documents [⟨"abcdef".data, "d.txt".data⟩] 4 1
      = .ok [⟨"abcd".data, "d.txt".data, 0⟩, ⟨"def".data, "d.txt".data, 1⟩] :=
  ⟨c8_chunking_deterministic _ _ 4 1 rfl, by rfl⟩

/-- C2 counterexample: a directory with one readable and one unreadable
matching file.  load_documents returns the empty list — not the one
remaining readable Document — because src/index.py lines 28-35 wrap the
whole loader.load() call in try/except and return [] on any exception,
while DirectoryLoader (silent_errors left False) raises at the bad file. -/
theorem c2_counterexample_bad_file_drops_all :
    load_documents [fileA, fileBad] = [] ∧
    readableDocs [fileA, fileBad] = [⟨"hello".data, "a.txt".data⟩] ∧
    ([] : List Document) ≠ [(⟨"hello".data, "a.txt".data⟩ : Document)] :=
  ⟨rfl, rfl, by simp⟩

/-- C2 amended: when every matching file is readable, load_documents
returns the Documents of all of them; but as soon as one matching file is
unreadable, the whole load aborts and load_documents returns the empty
list — the readable files' Documents are lost, not preserved. -/
theorem c2_amended_loader_all_or_nothing (files : List SourceFile) :
    ((∀ f ∈ matchingFiles files, f.content.isSome) →
      load_documents files = readableDocs files) ∧
    ((∃ f ∈ matchingFiles files, f.content = none) →
      load_documents files = []) := by
  constructor
  · intro h
    unfold load_documents directoryLoaderLoad readableDocs
    rw [loaderLoadAux_all_readable _ h]
  · intro h
    obtain ⟨e, he⟩ := loaderLoadAux_error_of_bad _ h
    unfold load_documents directoryLoaderLoad
    rw [he]

/-- Witness for the amended C2 on concrete directories. -/
theorem c2_amended_loader_witness :
    load_documents [fileA] = readableDocs [fileA] ∧
    load_documents [fileA, fileBad] = [] :=
  ⟨(c2_amended_loader_all_or_nothing [fileA]).1 (by decide),
   (c2_amended_loader_all_or_nothing [fileA, fileBad]).2 (by decide)⟩

/-- C1 counterexample: after a successful build (stReady serves queries),
a rebuild in which a component raises — here the loader, hitting the
corrupt file fileBad — does NOT preserve the previous index: load_documents
swallows the exception into an empty list, build_rag_system returns None,
reinitialize_system overwrites rag_chain with None, and subsequent queries
fail with 503 instead of answering from the pre-rebuild index. -/
theorem c1_counterexample_loader_failure_discards_index :
    (Api.process_query envGood stReady "q".data).isOk = true ∧
    (reinitialize_system envLoaderFail stReady).1.ragChain = none ∧
    Api.process_query envLoaderFail (reinitialize_system envLoaderFail stReady).1
        "q".data
      = .error ⟨503, notReadyDetail⟩ :=
  ⟨rfl, rfl, rfl⟩

/-- C1 amended: when the rebuild fails by an exception propagating out of
build_rag_system (embedding, vector-store or LLM failure), the previous
chain is preserved — the assignment to rag_chain never runs, so queries
after the failed rebuild are answered exactly as against the pre-rebuild
state.  (A loader failure, by contrast, is swallowed into an empty document
list and discards the chain — see the counterexample.) -/
theorem c1_amended_raised_failure_preserves_chain (env : Env) (st : ApiState)
    (sys0 : RAGSystem) (c : RagChain)
    (hs : st.ragSystem = some sys0) (hc : st.ragChain = some c)
    (sysF : RAGSystem) (err : List Char)
    (hfail : build_rag_system env RAGSystem.init defaultModel
      = (sysF, .error err)) :
    (reinitialize_system env st).1.ragChain = some c ∧
    ∀ q, Api.process_query env (reinitialize_system env st).1 q
      = Api.process_query env st q := by
  obtain ⟨rs, rc⟩ := st
  have hrs : rs = some sys0 := hs
  have hrc : rc = some c := hc
  subst hrs
  subst hrc
  have hre2 : reinitialize_system env ⟨some sys0, some c⟩
      = (⟨some sysF, some c⟩, .failure ⟨500,
          "Error reinitializing system: ".data ++ err⟩) := by
    unfold reinitialize_system
    rw [hfail]
  rw [hre2]
  exact ⟨rfl, fun q => by
    simp [Api.process_query, RAGSystem.process_query]⟩

/-- Witness for the amended C1: the embedding backend goes down during the
rebuild; the chain of the healthy build keeps serving. -/
theorem c1_amended_raised_failure_witness :
    (reinitialize_system envEmbedFail stReady).1.ragChain = some readyChain ∧
    ∀ q, Api.process_query envEmbedFail (reinitialize_system envEmbedFail stReady).1 q
      = Api.process_query envEmbedFail stReady q :=
  c1_amended_raised_failure_preserves_chain envEmbedFail stReady readySys readyChain
    rfl rfl RAGSystem.init ['E', 'm', 'b', 'e', 'd'] rfl

/-- C4 amended: building against a directory with zero matching files
returns None without raising (the EMPTY outcome), and every subsequent
query fails with the 503 error — never a fabricated answer.  The detail
string is the fixed notReadyDetail; it does not carry the specific state
name (see the counterexample). -/
theorem c4_amended_empty_corpus (env : Env) (st : ApiState)
    (h : ∀ f ∈ env.files, txtGlobMatch f.path = false) :
    build_rag_system env RAGSystem.init defaultModel
      = (RAGSystem.init, .ok none) ∧
    (reinitialize_system env st).1.ragChain = none ∧
    ∀ q, Api.process_query env (reinitialize_system env st).1 q
      = .error ⟨503, notReadyDetail⟩ := by
  have hm : matchingFiles env.files = [] := by
    rw [matchingFiles, List.filter_eq_nil_iff]
    intro f hf
    simp [h f hf]
  have hload : load_documents env.files = [] := by
    unfold load_documents directoryLoaderLoad
    rw [hm]
    rfl
  have hb : build_rag_system env RAGSystem.init defaultModel
      = (RAGSystem.init, .ok none) := by
    unfold build_rag_system
    rw [hload]
    rfl
  have hre : reinitialize_system env st = (⟨some RAGSystem.init, none⟩, .warning) := by
    unfold reinitialize_system
    rw [hb]
  exact ⟨hb, by rw [hre], fun q => by rw [hre]; rfl⟩

/-- Witness for the amended C4 on the empty directory. -/
theorem c4_amended_empty_corpus_witness :
    build_rag_system envNoFiles RAGSystem.init defaultModel
      = (RAGSystem.init, .ok none) ∧
    (reinitialize_system envNoFiles ⟨none, none⟩).1.ragChain = none ∧
    ∀ q, Api.process_query envNoFiles (reinitialize_system envNoFiles ⟨none, none⟩).1 q
      = .error ⟨503, notReadyDetail⟩ :=
  c4_amended_empty_corpus envNoFiles ⟨none, none⟩ (by decide)

/-- C4 counterexample: the EMPTY-built state and the never-built state are
distinct, yet the query handler returns the identical fixed 503 error in
both — so the error cannot carry the current state name, contrary to the
claim. -/
theorem c4_counterexample_error_lacks_state_name :
    (reinitialize_system envNoFiles ⟨none, none⟩).1 ≠ (⟨none, none⟩ : ApiState) ∧
    Api.process_query envNoFiles (reinitialize_system envNoFiles ⟨none, none⟩).1
        "q".data
      = Api.process_query envNoFiles ⟨none, none⟩ "q".data ∧
    Api.process_query envNoFiles ⟨none, none⟩ "q".data
      = .error ⟨503, notReadyDetail⟩ :=
  ⟨by decide, rfl, rfl⟩

theorem pathName_no_sep (s : List Char) : ∀ c ∈ pathName s, c ≠ '/' := by
  intro c hc
  rw [pathName, List.mem_reverse] at hc
  have h := List.mem_takeWhile_imp hc
  simpa using h

theorem splitext_subset (b : List Char) :
    (splitext b).1 ⊆ b ∧ (splitext b).2 ⊆ b := by
  unfold splitext
  cases h : lastDotIdx b with
  | none => exact ⟨fun c hc => hc, fun c hc => absurd hc (List.not_mem_nil c)⟩
  | some i =>
      by_cases hd : ((List.take i b).all (fun c => c == '.')) = true
      · simp only [hd, if_true]
        exact ⟨fun c hc => hc, fun c hc => absurd hc (List.not_mem_nil c)⟩
      · simp only [hd, if_false]
        exact ⟨List.take_subset i b, List.drop_subset i b⟩

theorem txtGlob_last {l : List Char} (h : txtGlobMatch l = true) :
    l.getLast? = some 't' := by
  rw [txtGlobMatch] at h
  obtain ⟨t, ht⟩ := List.isPrefixOf_iff_prefix.mp h
  have hh : l.reverse.head? = some 't' := by rw [← ht]; rfl
  rw [List.head?_reverse] at hh
  exact hh

theorem getLast?_sanitize_of_ext_ne (name uid : List Char)
    (h : (splitext (pathName name)).2 ≠ []) :
    (sanitize_filename name uid).getLast?
      = (splitext (pathName name)).2.getLast? := by
  unfold sanitize_filename
  rw [List.getLast?_append_of_ne_nil _ (by simp)]
  have hsplit : ('_' :: (uid ++ (splitext (pathName name)).2))
      = ['_'] ++ (uid ++ (splitext (pathName name)).2) := rfl
  rw [hsplit, List.getLast?_append_of_ne_nil _ (by simp [h]),
    List.getLast?_append_of_ne_nil _ h]

theorem getLast?_sanitize_of_ext_nil (name uid : List Char)
    (hext : (splitext (pathName name)).2 = []) (hu : uid ≠ []) :
    (sanitize_filename name uid).getLast? = uid.getLast? := by
  unfold sanitize_filename
  rw [hext, List.append_nil]
  rw [List.getLast?_append_of_ne_nil _ (by simp)]
  have hsplit : ('_' :: uid) = ['_'] ++ uid := rfl
  rw [hsplit, List.getLast?_append_of_ne_nil _ hu]

theorem pathSuffix_cases (name : List Char) (hne : pathSuffix name ≠ []) :
    (splitext (pathName name)).2 = [] ∨
    (splitext (pathName name)).2 = pathSuffix name := by
  cases h : lastDotIdx (pathName name) with
  | none =>
      exfalso
      apply hne
      unfold pathSuffix
      simp only [h]
  | some i =>
      by_cases hd : ((List.take i (pathName name)).all (fun c => c == '.')) = true
      · left
        unfold splitext
        simp only [h]
        rw [if_pos hd]
      · right
        unfold splitext
        simp only [h]
        rw [if_neg hd]
        by_cases hcond : 0 < i ∧ i < (pathName name).length - 1
        · unfold pathSuffix
          simp only [h]
          rw [if_pos hcond]
        · exfalso
          apply hne
          unfold pathSuffix
          simp only [h]
          rw [if_neg hcond]

/-- C9: a filename whose (lower-cased) suffix is ".pdf" or ".docx" passes
is_allowed_file, so its upload succeeds and it is saved (with the extension
preserved by sanitize_filename) — yet the saved name does not match the
"**/*.txt" glob, and every Document the rebuilt RAGSystem loads comes from
a path matching that glob: the uploaded file's content is never part of the
rebuilt index. -/
theorem c9_upload_accepts_but_loader_ignores (name uid : List Char)
    (hext : (pathSuffix name).map Char.toLower = ".pdf".data ∨
            (pathSuffix name).map Char.toLower = ".docx".data)
    (huid : ∀ c ∈ uid, isHexCh c = true) (hu : uid ≠ []) :
    is_allowed_file name = true ∧
    txtGlobMatch (sanitize_filename name uid) = false ∧
    ∀ files d, d ∈ load_documents files → txtGlobMatch d.source = true := by
  have hallow : is_allowed_file name = true := by
    unfold is_allowed_file
    rcases hext with h | h <;> rw [h] <;> decide
  have hne : pathSuffix name ≠ [] := by
    intro h0
    rcases hext with h | h <;> rw [h0] at h <;> exact absurd h (by decide)
  have hglob : txtGlobMatch (sanitize_filename name uid) = false := by
    by_contra hcon
    have ht : txtGlobMatch (sanitize_filename name uid) = true := by
      simpa using hcon
    have hlast := txtGlob_last ht
    rcases pathSuffix_cases name hne with hcase | hcase
    · rw [getLast?_sanitize_of_ext_nil name uid hcase hu] at hlast
      have hmem : 't' ∈ uid := List.mem_of_getLast?_eq_some hlast
      exact absurd (huid 't' hmem) (by decide)
    · have hextne : (splitext (pathName name)).2 ≠ [] := by
        rw [hcase]; exact hne
      rw [getLast?_sanitize_of_ext_ne name uid hextne, hcase] at hlast
      rcases hext with h | h
      all_goals {
        have hcg := congrArg List.getLast? h
        rw [List.getLast?_map, hlast] at hcg
        exact absurd hcg (by decide) }
  exact ⟨hallow, hglob, fun files d hd => load_documents_sources files d hd⟩

/-- Witness for C9: an uploaded "report.pdf" with a concrete uuid slice. -/
theorem c9_upload_accepts_but_loader_ignores_witness :
    is_allowed_file "report.pdf".data = true ∧
    txtGlobMatch (sanitize_filename "report.pdf".data "abcd1234".data) = false ∧
    ∀ files d, d ∈ load_documents files → txtGlobMatch d.source = true :=
  c9_upload_accepts_but_loader_ignores "report.pdf".data "abcd1234".data
    (Or.inl (by decide)) (by decide) (by decide)

/-- C10: sanitize_filename never returns a path separator — it keeps only
the basename of the client-supplied name and splices in the uuid slice —
so the path the upload endpoint writes to is always the upload directory
plus a single separator plus that separator-free name: the write lands
directly inside the upload directory. -/
theorem c10_sanitize_confines_writes (name uid : List Char)
    (huid : '/' ∉ uid) :
    '/' ∉ sanitize_filename name uid ∧
    osPathJoin "docs".data (sanitize_filename name uid)
      = "docs".data ++ '/' :: sanitize_filename name uid := by
  have hnotmem : '/' ∉ sanitize_filename name uid := by
    intro hmem
    unfold sanitize_filename at hmem
    rcases List.mem_append.mp hmem with h1 | h2
    · exact pathName_no_sep name '/' ((splitext_subset (pathName name)).1 h1) rfl
    · rcases List.mem_cons.mp h2 with h3 | h4
      · exact absurd h3 (by decide)
      · rcases List.mem_append.mp h4 with h5 | h6
        · exact huid h5
        · exact pathName_no_sep name '/'
            ((splitext_subset (pathName name)).2 h6) rfl
  refine ⟨hnotmem, ?_⟩
  unfold osPathJoin
  rw [if_neg]
  intro hh
  apply hnotmem
  cases hsf : sanitize_filename name uid with
  | nil => rw [hsf] at hh; cases hh
  | cons c r =>
      rw [hsf] at hh
      have hc : c = '/' := by simpa using hh
      simp [hc]

/-- Witness for C10: a traversal attempt "../../etc/passwd" is confined to
the upload directory under a concrete uuid slice. -/
theorem c10_sanitize_confines_writes_witness :
    ('/' ∉ sanitize_filename "../../etc/passwd".data "abcd1234".data ∧
      osPathJoin "docs".data (sanitize_filename "../../etc/passwd".data "abcd1234".data)
        = "docs".data ++ '/' :: sanitize_filename "../../etc/passwd".data "abcd1234".data) ∧
    sanitize_filename "../../etc/passwd".data "abcd1234".data
      = "passwd_abcd1234".data :=
  ⟨c10_sanitize_confines_writes "../../etc/passwd".data "abcd1234".data (by decide),
   by rfl⟩

end RagSys
